import Mathlib

/-!
Verification of the Momentum-Alpha BTST scanner core (`src/app.py`):
the technical-indicator pipeline `calculate_technical_indicators`, the
rule-based scorer `calculate_btst_score`, and the recommendation
bucketing performed with `pd.cut`.

Numbers are modelled with `ℚ` (the Python code works on floats, but all
thresholds and awarded points are exact decimal constants, so rational
arithmetic reproduces every comparison the claims exercise).
-/

namespace BTST

/-- One augmented row as consumed by `calculate_btst_score`
(`src/app.py` lines 92-159).  The Python scorer accepts any dict and
reads each field with `row.get(key, default)`, so every field here is
optional; a `none` models an absent key. -/
structure Row where
  price_change_pct : Option ℚ := none
  volume_change_pct : Option ℚ := none
  rsi : Option ℚ := none
  macd_diff : Option ℚ := none
  ema_cross : Option ℚ := none
  bb_width : Option ℚ := none
  close_position : Option ℚ := none
  vwap_diff : Option ℚ := none
  ema20 : Option ℚ := none
  ema50 : Option ℚ := none
deriving DecidableEq

/-- Price momentum points (`src/app.py` lines 112-118): the `if/elif`
chain awards only the highest matching tier. -/
def priceMomentumPoints (price_change : ℚ) : ℤ :=
  if price_change > 3 then 30
  else if price_change > 2 then 20
  else if price_change > 1 then 10
  else 0

/-- Volume spike points (`src/app.py` lines 120-126). -/
def volumeSpikePoints (vol_change : ℚ) : ℤ :=
  if vol_change > 150 then 20
  else if vol_change > 100 then 15
  else if vol_change > 50 then 10
  else 0

/-- RSI band points (`src/app.py` line 129: `if 55 < rsi < 70`). -/
def rsiPoints (rsi : ℚ) : ℤ :=
  if 55 < rsi ∧ rsi < 70 then 10 else 0

/-- MACD histogram points (`src/app.py` line 132). -/
def macdPoints (macd_diff : ℚ) : ℤ :=
  if macd_diff > 0 then 10 else 0

/-- EMA crossover points (`src/app.py` line 135: `if ema_cross == 1`). -/
def emaCrossPoints (ema_cross : ℚ) : ℤ :=
  if ema_cross = 1 then 5 else 0

/-- Bollinger-width points (`src/app.py` line 138). -/
def bbWidthPoints (bb_width : ℚ) : ℤ :=
  if bb_width > (1 : ℚ)/10 then 5 else 0

/-- Closing position points (`src/app.py` lines 142-147). -/
def closePosPoints (close_pos : ℚ) : ℤ :=
  if close_pos > (8 : ℚ)/10 then 20
  else if close_pos > (7 : ℚ)/10 then 15
  else if close_pos > (6 : ℚ)/10 then 10
  else 0

/-- VWAP position points (`src/app.py` lines 150-153). -/
def vwapPoints (vwap_diff : ℚ) : ℤ :=
  if vwap_diff > 1 then 10
  else if vwap_diff > (1 : ℚ)/2 then 5
  else 0

/-- Trend alignment points (`src/app.py` line 156: `if ema20 > ema50`). -/
def trendPoints (ema20 ema50 : ℚ) : ℤ :=
  if ema20 > ema50 then 10 else 0

/-- The scorer `calculate_btst_score` (`src/app.py` lines 92-159).  Fields are read
with the defaults of `row.get(key, default)` in the code; the sequential
`score += ...` accumulation is the sum of the nine per-signal addends,
and the returned value is `min(score, 100)`. -/
def calculate_btst_score (row : Row) : ℤ :=
  let price_change := row.price_change_pct.getD 0
  let vol_change := row.volume_change_pct.getD 0
  let rsi := row.rsi.getD 50
  let macd_diff := row.macd_diff.getD 0
  let ema_cross := row.ema_cross.getD 0
  let bb_width := row.bb_width.getD 0
  let close_pos := row.close_position.getD ((1 : ℚ)/2)
  let vwap_diff := row.vwap_diff.getD 0
  let ema20 := row.ema20.getD 0
  let ema50 := row.ema50.getD 1
  let score :=
    priceMomentumPoints price_change + volumeSpikePoints vol_change +
    rsiPoints rsi + macdPoints macd_diff + emaCrossPoints ema_cross +
    bbWidthPoints bb_width + closePosPoints close_pos +
    vwapPoints vwap_diff + trendPoints ema20 ema50
  min score 100

/-- The row of C5: every signal at its strongest threshold. -/
def maxRow : Row :=
  { price_change_pct := some 5
    volume_change_pct := some 200
    rsi := some 60
    macd_diff := some 1
    ema_cross := some 1
    bb_width := some ((2 : ℚ)/10)
    close_position := some ((9 : ℚ)/10)
    vwap_diff := some 2
    ema20 := some 2
    ema50 := some 1 }

/-- The row of C6: every signal at a neutral/disqualifying value. -/
def neutralRow : Row :=
  { price_change_pct := some 0
    volume_change_pct := some 0
    rsi := some 50
    macd_diff := some 0
    ema_cross := some 0
    bb_width := some 0
    close_position := some ((1 : ℚ)/2)
    vwap_diff := some 0
    ema20 := some 1
    ema50 := some 2 }

lemma priceMomentumPoints_nonneg (x : ℚ) : 0 ≤ priceMomentumPoints x := by
  unfold priceMomentumPoints; split_ifs <;> norm_num

lemma volumeSpikePoints_nonneg (x : ℚ) : 0 ≤ volumeSpikePoints x := by
  unfold volumeSpikePoints; split_ifs <;> norm_num

lemma rsiPoints_nonneg (x : ℚ) : 0 ≤ rsiPoints x := by
  unfold rsiPoints; split_ifs <;> norm_num

lemma macdPoints_nonneg (x : ℚ) : 0 ≤ macdPoints x := by
  unfold macdPoints; split_ifs <;> norm_num

lemma emaCrossPoints_nonneg (x : ℚ) : 0 ≤ emaCrossPoints x := by
  unfold emaCrossPoints; split_ifs <;> norm_num

lemma bbWidthPoints_nonneg (x : ℚ) : 0 ≤ bbWidthPoints x := by
  unfold bbWidthPoints; split_ifs <;> norm_num

lemma closePosPoints_nonneg (x : ℚ) : 0 ≤ closePosPoints x := by
  unfold closePosPoints; split_ifs <;> norm_num

lemma vwapPoints_nonneg (x : ℚ) : 0 ≤ vwapPoints x := by
  unfold vwapPoints; split_ifs <;> norm_num

lemma trendPoints_nonneg (x y : ℚ) : 0 ≤ trendPoints x y := by
  unfold trendPoints; split_ifs <;> norm_num

lemma priceMomentumPoints_dvd (x : ℚ) : (5 : ℤ) ∣ priceMomentumPoints x := by
  unfold priceMomentumPoints; split_ifs <;> decide

lemma volumeSpikePoints_dvd (x : ℚ) : (5 : ℤ) ∣ volumeSpikePoints x := by
  unfold volumeSpikePoints; split_ifs <;> decide

lemma rsiPoints_dvd (x : ℚ) : (5 : ℤ) ∣ rsiPoints x := by
  unfold rsiPoints; split_ifs <;> decide

lemma macdPoints_dvd (x : ℚ) : (5 : ℤ) ∣ macdPoints x := by
  unfold macdPoints; split_ifs <;> decide

lemma emaCrossPoints_dvd (x : ℚ) : (5 : ℤ) ∣ emaCrossPoints x := by
  unfold emaCrossPoints; split_ifs <;> decide

lemma bbWidthPoints_dvd (x : ℚ) : (5 : ℤ) ∣ bbWidthPoints x := by
  unfold bbWidthPoints; split_ifs <;> decide

lemma closePosPoints_dvd (x : ℚ) : (5 : ℤ) ∣ closePosPoints x := by
  unfold closePosPoints; split_ifs <;> decide

lemma vwapPoints_dvd (x : ℚ) : (5 : ℤ) ∣ vwapPoints x := by
  unfold vwapPoints; split_ifs <;> decide

lemma trendPoints_dvd (x y : ℚ) : (5 : ℤ) ∣ trendPoints x y := by
  unfold trendPoints; split_ifs <;> decide

/-- C1: for every augmented row (any subset of indicator fields present),
`calculate_btst_score` returns an integer in the closed interval
`[0, 100]`. -/
theorem score_in_range (row : Row) :
    0 ≤ calculate_btst_score row ∧ calculate_btst_score row ≤ 100 := by
  unfold calculate_btst_score
  refine ⟨le_min ?_ (by norm_num), min_le_right _ _⟩
  have h1 := priceMomentumPoints_nonneg (row.price_change_pct.getD 0)
  have h2 := volumeSpikePoints_nonneg (row.volume_change_pct.getD 0)
  have h3 := rsiPoints_nonneg (row.rsi.getD 50)
  have h4 := macdPoints_nonneg (row.macd_diff.getD 0)
  have h5 := emaCrossPoints_nonneg (row.ema_cross.getD 0)
  have h6 := bbWidthPoints_nonneg (row.bb_width.getD 0)
  have h7 := closePosPoints_nonneg (row.close_position.getD ((1 : ℚ)/2))
  have h8 := vwapPoints_nonneg (row.vwap_diff.getD 0)
  have h9 := trendPoints_nonneg (row.ema20.getD 0) (row.ema50.getD 1)
  linarith

/-- C5: with every signal at its strongest threshold (price_change_pct=5,
volume_change_pct=200, rsi=60, macd_diff=1, ema_cross=1, bb_width=0.2,
close_position=0.9, vwap_diff=2, ema20>ema50) the scorer returns exactly
100: the raw sum 30+20+10+10+5+5+20+10+10 = 120 is capped at 100. -/
theorem score_maxRow : calculate_btst_score maxRow = 100 := by
  unfold calculate_btst_score maxRow priceMomentumPoints volumeSpikePoints
    rsiPoints macdPoints emaCrossPoints bbWidthPoints closePosPoints
    vwapPoints trendPoints
  norm_num [min_def]

/-- C6: with every signal at a neutral/disqualifying value
(price_change_pct=0, volume_change_pct=0, rsi=50, macd_diff=0,
ema_cross=0, bb_width=0, close_position=0.5, vwap_diff=0, ema20<ema50)
the scorer returns exactly 0. -/
theorem score_neutralRow : calculate_btst_score neutralRow = 0 := by
  unfold calculate_btst_score neutralRow priceMomentumPoints volumeSpikePoints
    rsiPoints macdPoints emaCrossPoints bbWidthPoints closePosPoints
    vwapPoints trendPoints
  norm_num [min_def]

/-- C7: holding every other field fixed, evaluating the scorer at
price_change_pct = 0.5, 1.5, 2.5, 3.5 yields a non-decreasing sequence
of scores, the price-momentum contribution being 0, 10, 20, 30
respectively (tiers of one signal are mutually exclusive: only the
highest matching tier awards points). -/
theorem score_monotone_price (r : Row) :
    calculate_btst_score { r with price_change_pct := some ((1 : ℚ)/2) } ≤
      calculate_btst_score { r with price_change_pct := some ((3 : ℚ)/2) } ∧
    calculate_btst_score { r with price_change_pct := some ((3 : ℚ)/2) } ≤
      calculate_btst_score { r with price_change_pct := some ((5 : ℚ)/2) } ∧
    calculate_btst_score { r with price_change_pct := some ((5 : ℚ)/2) } ≤
      calculate_btst_score { r with price_change_pct := some ((7 : ℚ)/2) } ∧
    priceMomentumPoints ((1 : ℚ)/2) = 0 ∧ priceMomentumPoints ((3 : ℚ)/2) = 10 ∧
    priceMomentumPoints ((5 : ℚ)/2) = 20 ∧ priceMomentumPoints ((7 : ℚ)/2) = 30 := by
  have h05 : priceMomentumPoints ((1 : ℚ)/2) = 0 := by
    unfold priceMomentumPoints; norm_num
  have h15 : priceMomentumPoints ((3 : ℚ)/2) = 10 := by
    unfold priceMomentumPoints; norm_num
  have h25 : priceMomentumPoints ((5 : ℚ)/2) = 20 := by
    unfold priceMomentumPoints; norm_num
  have h35 : priceMomentumPoints ((7 : ℚ)/2) = 30 := by
    unfold priceMomentumPoints; norm_num
  refine ⟨?_, ?_, ?_, h05, h15, h25, h35⟩ <;>
    · simp only [calculate_btst_score, Option.getD_some, h05, h15, h25, h35]
      exact min_le_min (by omega) le_rfl

/-- C10: every value returned by `calculate_btst_score` is a multiple of
5: each signal awards a multiple of 5 and the cap 100 is one too. -/
theorem score_multiple_of_five (row : Row) :
    (5 : ℤ) ∣ calculate_btst_score row := by
  unfold calculate_btst_score
  rw [min_def]
  split_ifs
  · exact Int.dvd_add (Int.dvd_add (Int.dvd_add (Int.dvd_add (Int.dvd_add
      (Int.dvd_add (Int.dvd_add (Int.dvd_add (priceMomentumPoints_dvd _)
      (volumeSpikePoints_dvd _)) (rsiPoints_dvd _)) (macdPoints_dvd _))
      (emaCrossPoints_dvd _)) (bbWidthPoints_dvd _)) (closePosPoints_dvd _))
      (vwapPoints_dvd _)) (trendPoints_dvd _ _)
  · decide

/-- Recommendation bucketing (`src/app.py` lines 277-281):
`pd.cut(score, bins=[0, 40, 65, 85, 100], labels=[...])` with pandas
defaults `right=True` and `include_lowest=False`, i.e. the intervals are
`(0,40]`, `(40,65]`, `(65,85]`, `(85,100]` and a value on no interval
(in particular the left edge 0) gets no label (`NaN`, modelled `none`). -/
def recommendation (s : ℤ) : Option String :=
  if 0 < s ∧ s ≤ 40 then some "Avoid"
  else if 40 < s ∧ s ≤ 65 then some "Neutral"
  else if 65 < s ∧ s ≤ 85 then some "Watch"
  else if 85 < s ∧ s ≤ 100 then some "Strong Buy"
  else none

/-- C2, counterexample: the claim maps score 0 to "Avoid", but
`pd.cut` with `include_lowest=False` (the default) leaves the left edge
of the lowest bin unlabelled, so score 0 gets no recommendation. -/
theorem recommendation_zero_unlabelled :
    recommendation 0 = none ∧ recommendation 0 ≠ some "Avoid" := by
  unfold recommendation
  norm_num
  intro h
  exact Option.noConfusion h

/-- C2, amended: bucketing is a pure function of the score mapping
`(0,40]` to "Avoid", `(40,65]` to "Neutral", `(65,85]` to "Watch" and
`(85,100]` to "Strong Buy", every boundary half-open on the left and
closed on the right; score 0 lies below the lowest bucket and receives
no label (not "Avoid"). -/
theorem recommendation_buckets (s : ℤ) :
    (0 < s → s ≤ 40 → recommendation s = some "Avoid") ∧
    (40 < s → s ≤ 65 → recommendation s = some "Neutral") ∧
    (65 < s → s ≤ 85 → recommendation s = some "Watch") ∧
    (85 < s → s ≤ 100 → recommendation s = some "Strong Buy") ∧
    recommendation 0 = none := by
  refine ⟨?_, ?_, ?_, ?_, by unfold recommendation; norm_num⟩ <;>
    · intro h1 h2
      unfold recommendation
      split_ifs <;> first | rfl | omega

/-- Witness for the amended theorem of C2 at the boundary scores 40, 41, 85
and 86. -/
theorem recommendation_buckets_witness :
    recommendation 40 = some "Avoid" ∧ recommendation 41 = some "Neutral" ∧
    recommendation 85 = some "Watch" ∧ recommendation 86 = some "Strong Buy" :=
  ⟨(recommendation_buckets 40).1 (by norm_num) (by norm_num),
   (recommendation_buckets 41).2.1 (by norm_num) (by norm_num),
   (recommendation_buckets 85).2.2.1 (by norm_num) (by norm_num),
   (recommendation_buckets 86).2.2.2.1 (by norm_num) (by norm_num)⟩

/-- A Python value as it may appear in a scorer input dict: a number or
a non-numeric value (represented by a string, the typical case). -/
inductive PyVal where
  | num (q : ℚ)
  | str (s : String)
deriving DecidableEq

/-- Numeric payload; a non-numeric value has no numeric reading and is
mapped to 0 only for stating the reading "treated as 0" in the spec. -/
def PyVal.toQ : PyVal → ℚ
  | .num q => q
  | .str _ => 0

/-- Python `x > y`: numeric comparison on two numbers, lexicographic on
two strings, `TypeError` on a mixed pair. -/
def pyGT : PyVal → PyVal → Except String Bool
  | .num a, .num b => pure (decide (b < a))
  | .str a, .str b => pure (decide (b < a))
  | _, _ => .error "TypeError"

/-- Python `x < y`, same conventions as `pyGT`. -/
def pyLT : PyVal → PyVal → Except String Bool
  | .num a, .num b => pure (decide (a < b))
  | .str a, .str b => pure (decide (a < b))
  | _, _ => .error "TypeError"

/-- Python `x == y`: never raises; values of different types are simply
unequal. -/
def pyEq : PyVal → PyVal → Bool
  | .num a, .num b => decide (a = b)
  | .str a, .str b => decide (a = b)
  | _, _ => false

/-- Scorer input as a raw Python dict: any subset of fields present,
each holding an arbitrary Python value. -/
structure PyRow where
  price_change_pct : Option PyVal := none
  volume_change_pct : Option PyVal := none
  rsi : Option PyVal := none
  macd_diff : Option PyVal := none
  ema_cross : Option PyVal := none
  bb_width : Option PyVal := none
  close_position : Option PyVal := none
  vwap_diff : Option PyVal := none
  ema20 : Option PyVal := none
  ema50 : Option PyVal := none
deriving DecidableEq

/-- Holds (`true`) iff no present field holds a non-numeric value. -/
def PyRow.numericFields (r : PyRow) : Bool :=
  r.price_change_pct.all (fun v => match v with | .num _ => true | .str _ => false) &&
  r.volume_change_pct.all (fun v => match v with | .num _ => true | .str _ => false) &&
  r.rsi.all (fun v => match v with | .num _ => true | .str _ => false) &&
  r.macd_diff.all (fun v => match v with | .num _ => true | .str _ => false) &&
  r.ema_cross.all (fun v => match v with | .num _ => true | .str _ => false) &&
  r.bb_width.all (fun v => match v with | .num _ => true | .str _ => false) &&
  r.close_position.all (fun v => match v with | .num _ => true | .str _ => false) &&
  r.vwap_diff.all (fun v => match v with | .num _ => true | .str _ => false) &&
  r.ema20.all (fun v => match v with | .num _ => true | .str _ => false) &&
  r.ema50.all (fun v => match v with | .num _ => true | .str _ => false)

/-- Numeric reading of a raw dict (present non-numeric fields read as 0,
the behaviour the spec claims). -/
def PyRow.toRow (r : PyRow) : Row :=
  { price_change_pct := r.price_change_pct.map PyVal.toQ
    volume_change_pct := r.volume_change_pct.map PyVal.toQ
    rsi := r.rsi.map PyVal.toQ
    macd_diff := r.macd_diff.map PyVal.toQ
    ema_cross := r.ema_cross.map PyVal.toQ
    bb_width := r.bb_width.map PyVal.toQ
    close_position := r.close_position.map PyVal.toQ
    vwap_diff := r.vwap_diff.map PyVal.toQ
    ema20 := r.ema20.map PyVal.toQ
    ema50 := r.ema50.map PyVal.toQ }

/-- The scorer `calculate_btst_score` (`src/app.py` lines 92-159) under Python
evaluation semantics for raw dict inputs: each comparison on a value of
the wrong type raises (`Except.error`), exactly where CPython raises a
`TypeError`; blocks run in source order, so the first failing
comparison aborts the call.  `55 < rsi < 70` short-circuits as in
Python. -/
def calculate_btst_score_py (row : PyRow) : Except String ℤ := do
  let price_change := row.price_change_pct.getD (.num 0)
  let vol_change := row.volume_change_pct.getD (.num 0)
  let rsi := row.rsi.getD (.num 50)
  let macd_diff := row.macd_diff.getD (.num 0)
  let ema_cross := row.ema_cross.getD (.num 0)
  let bb_width := row.bb_width.getD (.num 0)
  let close_pos := row.close_position.getD (.num ((1 : ℚ)/2))
  let vwap_diff := row.vwap_diff.getD (.num 0)
  let ema20 := row.ema20.getD (.num 0)
  let ema50 := row.ema50.getD (.num 1)
  let s1 : ℤ ←
    (do if ← pyGT price_change (.num 3) then pure 30
        else if ← pyGT price_change (.num 2) then pure 20
        else if ← pyGT price_change (.num 1) then pure 10
        else pure 0)
  let s2 : ℤ ←
    (do if ← pyGT vol_change (.num 150) then pure 20
        else if ← pyGT vol_change (.num 100) then pure 15
        else if ← pyGT vol_change (.num 50) then pure 10
        else pure 0)
  let s3 : ℤ ←
    (do if ← pyLT (.num 55) rsi then
          (do if ← pyLT rsi (.num 70) then pure 10 else pure 0)
        else pure 0)
  let s4 : ℤ ← (do if ← pyGT macd_diff (.num 0) then pure 10 else pure 0)
  let s5 : ℤ := if pyEq ema_cross (.num 1) then 5 else 0
  let s6 : ℤ ← (do if ← pyGT bb_width (.num ((1 : ℚ)/10)) then pure 5 else pure 0)
  let s7 : ℤ ←
    (do if ← pyGT close_pos (.num ((8 : ℚ)/10)) then pure 20
        else if ← pyGT close_pos (.num ((7 : ℚ)/10)) then pure 15
        else if ← pyGT close_pos (.num ((6 : ℚ)/10)) then pure 10
        else pure 0)
  let s8 : ℤ ←
    (do if ← pyGT vwap_diff (.num 1) then pure 10
        else if ← pyGT vwap_diff (.num ((1 : ℚ)/2)) then pure 5
        else pure 0)
  let s9 : ℤ ← (do if ← pyGT ema20 ema50 then pure 10 else pure 0)
  pure (min (s1 + s2 + s3 + s4 + s5 + s6 + s7 + s8 + s9) 100)

/-- A raw dict whose `price_change_pct` key holds a non-numeric value. -/
def badPyRow : PyRow := { price_change_pct := some (.str "N/A") }

lemma getD_of_numeric (o : Option PyVal) (d : ℚ)
    (h : o.all (fun v => match v with | .num _ => true | .str _ => false) = true) :
    o.getD (.num d) = .num ((o.map PyVal.toQ).getD d) := by
  cases o with
  | none => rfl
  | some v =>
      cases v with
      | num q => rfl
      | str s => exact Bool.noConfusion h

lemma pyPriceBlock (a : ℚ) :
    (do if ← pyGT (.num a) (.num 3) then pure 30
        else if ← pyGT (.num a) (.num 2) then pure 20
        else if ← pyGT (.num a) (.num 1) then pure 10
        else pure 0 : Except String ℤ) = pure (priceMomentumPoints a) := by
  simp only [pyGT, pure_bind, decide_eq_true_eq, priceMomentumPoints]
  split_ifs <;> rfl

lemma pyVolBlock (a : ℚ) :
    (do if ← pyGT (.num a) (.num 150) then pure 20
        else if ← pyGT (.num a) (.num 100) then pure 15
        else if ← pyGT (.num a) (.num 50) then pure 10
        else pure 0 : Except String ℤ) = pure (volumeSpikePoints a) := by
  simp only [pyGT, pure_bind, decide_eq_true_eq, volumeSpikePoints]
  split_ifs <;> rfl

lemma pyRsiBlock (a : ℚ) :
    (do if ← pyLT (.num 55) (.num a) then
          (do if ← pyLT (.num a) (.num 70) then pure 10 else pure 0)
        else pure 0 : Except String ℤ) = pure (rsiPoints a) := by
  simp only [pyLT, pure_bind, decide_eq_true_eq, rsiPoints]
  split_ifs <;> first | rfl | tauto

lemma pyMacdBlock (a : ℚ) :
    (do if ← pyGT (.num a) (.num 0) then pure 10 else pure 0 :
      Except String ℤ) = pure (macdPoints a) := by
  simp only [pyGT, pure_bind, decide_eq_true_eq, macdPoints]
  split_ifs <;> rfl

lemma pyBbBlock (a : ℚ) :
    (do if ← pyGT (.num a) (.num ((1 : ℚ)/10)) then pure 5 else pure 0 :
      Except String ℤ) = pure (bbWidthPoints a) := by
  simp only [pyGT, pure_bind, decide_eq_true_eq, bbWidthPoints]
  split_ifs <;> rfl

lemma pyClosePosBlock (a : ℚ) :
    (do if ← pyGT (.num a) (.num ((8 : ℚ)/10)) then pure 20
        else if ← pyGT (.num a) (.num ((7 : ℚ)/10)) then pure 15
        else if ← pyGT (.num a) (.num ((6 : ℚ)/10)) then pure 10
        else pure 0 : Except String ℤ) = pure (closePosPoints a) := by
  simp only [pyGT, pure_bind, decide_eq_true_eq, closePosPoints]
  split_ifs <;> rfl

lemma pyVwapBlock (a : ℚ) :
    (do if ← pyGT (.num a) (.num 1) then pure 10
        else if ← pyGT (.num a) (.num ((1 : ℚ)/2)) then pure 5
        else pure 0 : Except String ℤ) = pure (vwapPoints a) := by
  simp only [pyGT, pure_bind, decide_eq_true_eq, vwapPoints]
  split_ifs <;> rfl

lemma pyTrendBlock (a b : ℚ) :
    (do if ← pyGT (.num a) (.num b) then pure 10 else pure 0 :
      Except String ℤ) = pure (trendPoints a b) := by
  simp only [pyGT, pure_bind, decide_eq_true_eq, trendPoints]
  split_ifs <;> rfl

/-- C3, counterexample: a present non-numeric field is not treated as 0.
With `price_change_pct = "N/A"` and every other key absent, the very
first comparison `price_change > 3` raises a `TypeError`, so the scorer
does not return the score the claim predicts (the one computed with the
field read as 0). -/
theorem scorer_raises_on_nonnumeric :
    calculate_btst_score_py badPyRow = Except.error "TypeError" ∧
    calculate_btst_score_py badPyRow ≠
      Except.ok (calculate_btst_score (PyRow.toRow badPyRow)) := by
  constructor
  · rfl
  · intro h
    rw [show calculate_btst_score_py badPyRow = Except.error "TypeError" from rfl] at h
    exact Except.noConfusion h

/-- C3, amended: the scorer is total over every augmented row whose
present fields are numeric — a missing field is read via its documented
default and never raises, and the result is the pure rubric score.  A
present non-numeric field, however, raises a `TypeError` when it meets
its comparison instead of being treated as 0. -/
theorem scorer_total_on_numeric (r : PyRow) (h : r.numericFields = true) :
    calculate_btst_score_py r = Except.ok (calculate_btst_score (PyRow.toRow r)) := by
  unfold PyRow.numericFields at h
  simp only [Bool.and_eq_true] at h
  obtain ⟨⟨⟨⟨⟨⟨⟨⟨⟨h1, h2⟩, h3⟩, h4⟩, h5⟩, h6⟩, h7⟩, h8⟩, h9⟩, h10⟩ := h
  unfold calculate_btst_score_py
  simp only [getD_of_numeric _ _ h1, getD_of_numeric _ _ h2,
    getD_of_numeric _ _ h3, getD_of_numeric _ _ h4, getD_of_numeric _ _ h5,
    getD_of_numeric _ _ h6, getD_of_numeric _ _ h7, getD_of_numeric _ _ h8,
    getD_of_numeric _ _ h9, getD_of_numeric _ _ h10]
  rw [pyPriceBlock]; simp only [pure_bind]
  rw [pyVolBlock]; simp only [pure_bind]
  rw [pyRsiBlock]; simp only [pure_bind]
  rw [pyMacdBlock]; simp only [pure_bind]
  rw [pyBbBlock]; simp only [pure_bind]
  rw [pyClosePosBlock]; simp only [pure_bind]
  rw [pyVwapBlock]; simp only [pure_bind]
  rw [pyTrendBlock]; simp only [pure_bind]
  simp only [pyEq, decide_eq_true_eq]
  unfold calculate_btst_score PyRow.toRow emaCrossPoints
  rfl

/-- Witness for the amended theorem of C3: the all-numeric row of C5 scores
without error and agrees with the pure scorer. -/
theorem scorer_total_on_numeric_witness :
    calculate_btst_score_py
      { price_change_pct := some (.num 5), volume_change_pct := some (.num 200),
        rsi := some (.num 60), macd_diff := some (.num 1),
        ema_cross := some (.num 1), bb_width := some (.num ((2 : ℚ)/10)),
        close_position := some (.num ((9 : ℚ)/10)), vwap_diff := some (.num 2),
        ema20 := some (.num 2), ema50 := some (.num 1) } =
    Except.ok (calculate_btst_score (PyRow.toRow
      { price_change_pct := some (.num 5), volume_change_pct := some (.num 200),
        rsi := some (.num 60), macd_diff := some (.num 1),
        ema_cross := some (.num 1), bb_width := some (.num ((2 : ℚ)/10)),
        close_position := some (.num ((9 : ℚ)/10)), vwap_diff := some (.num 2),
        ema20 := some (.num 2), ema50 := some (.num 1) })) :=
  scorer_total_on_numeric _ rfl

/-- One OHLCV bar of the input table; `date` is the (already datetime)
index value, modelled as an integer so `sort_index` is a sort on it. -/
structure Bar where
  date : ℤ
  openPrice : ℚ
  high : ℚ
  low : ℚ
  close : ℚ
  volume : ℚ
deriving DecidableEq

/-- The literal `1e-8` the source adds to denominators. -/
def eps : ℚ := 1/100000000

/-- The comparator of `df.sort_index(ascending=True)`. -/
def dateLe (a b : Bar) : Bool := decide (a.date ≤ b.date)

/-- Pandas `Series.pct_change().fillna(0)`: first entry `NaN → 0`, then
`x[t]/x[t-1] - 1`. -/
def pctChange : List ℚ → List ℚ
  | [] => []
  | x :: xs => 0 :: List.zipWith (fun prev cur => cur / prev - 1) (x :: xs) xs

/-- Pandas `Series.rolling(w, min_periods=1).mean()`: at index `i` the mean of
the last `min (i+1) w` entries. -/
def rollingMean (w : ℕ) (xs : List ℚ) : List ℚ :=
  (List.range xs.length).map (fun i =>
    let win := (xs.take (i + 1)).drop (i + 1 - w)
    win.sum / (win.length : ℚ))

/-- Pandas `Series.cumsum()`. -/
def cumsum (xs : List ℚ) : List ℚ :=
  (List.range xs.length).map (fun i => (xs.take (i + 1)).sum)

/-- The external `ta` library, an outside collaborator of the pipeline
(`ta.momentum.RSIIndicator(...).rsi()`, `ta.trend.MACD(...).macd_diff()`,
`ta.trend.EMAIndicator(...).ema_indicator()`,
`ta.volatility.BollingerBands(...).bollinger_wband()`).  Each call takes
the close series (plus a window where the source passes one) and either
raises — outer `none`, absorbed by the bare exception handler of the source — or
returns a series that may contain NaN entries — inner `none`, absorbed
by the `fillna` in the source.  Every claim proved below holds for all such
collaborators. -/
structure TaLib where
  rsi : ℕ → List ℚ → Option (List (Option ℚ))
  macd_diff : List ℚ → Option (List (Option ℚ))
  ema : ℕ → List ℚ → Option (List (Option ℚ))
  wband : List ℚ → Option (List (Option ℚ))

/-- The augmented table returned by the pipeline: the (sorted) input
bars plus every derived column. -/
structure AugTable where
  bars : List Bar
  price_change_pct : List ℚ
  volume_change_pct : List ℚ
  vwap : List ℚ
  vwap_diff : List ℚ
  close_position : List ℚ
  rsi : List ℚ
  macd_diff : List ℚ
  ema20 : List ℚ
  ema50 : List ℚ
  ema_cross : List ℚ
  bb_width : List ℚ

/-- Column `close_position` for one bar (`src/app.py` lines 44-48):
`(Close - Low) / (High - Low + 1e-8)`, then `fillna(0.5)`.  The ε keeps
the denominator nonzero whenever `High ≥ Low`, so the NaN case (0/0,
which needs `High - Low = -1e-8` exactly) is modelled by the guard and
never fires on real OHLCV data. -/
def closePos (b : Bar) : ℚ :=
  let range_val := b.high - b.low + eps
  if range_val = 0 ∧ b.close - b.low = 0 then 1/2
  else (b.close - b.low) / range_val

/-- Columns `ema20`/`ema50` (`src/app.py` lines 64-72): when the series
is at least `window` long, the `ta` EMA with NaNs filled from the close
column (fillna with the Close column); on a shorter series, or when the
library raises, the close column itself. -/
def emaCol (ta : TaLib) (window : ℕ) (closes : List ℚ) : List ℚ :=
  if closes.length ≥ window then
    match ta.ema window closes with
    | some col => List.zipWith (fun o c => o.getD c) col closes
    | none => closes
  else closes

/-- The pipeline `calculate_technical_indicators` (`src/app.py` lines 11-90).  The
first statement of the source is `df = df.copy()`, so the function works
on a copy and the table of the caller is never written; here that shows up as
the embedding being a pure function of the input list.  The copy is then
sorted by index ascending and every derived column is computed from the
sorted rows. -/
def calculate_technical_indicators (ta : TaLib) (df0 : List Bar) : AugTable :=
  let df := df0.mergeSort dateLe
  let n := df.length
  let closes := df.map Bar.close
  let volumes := df.map Bar.volume
  let price_change_pct := (pctChange closes).map (fun x => x * 100)
  let vol_window := min 10 (n - 1)
  let volume_change_pct :=
    if vol_window > 1 then
      List.zipWith (fun v avg => (v / avg - 1) * 100) volumes
        (rollingMean vol_window volumes)
    else List.replicate n 0
  let typical_price := df.map (fun b => (b.high + b.low + b.close) / 3)
  let cumulative_tp := cumsum (List.zipWith (fun t v => t * v) typical_price volumes)
  let cumulative_volume := cumsum volumes
  let vwap := List.zipWith (fun t v => t / v) cumulative_tp cumulative_volume
  let vwap_diff := List.zipWith (fun c w => (c - w) / (w + eps) * 100) closes vwap
  let close_position := df.map closePos
  let rsi :=
    match ta.rsi (min 14 (n - 1)) closes with
    | some col => col.map (fun o => o.getD 50)
    | none => List.replicate n 50
  let macd_diff :=
    match ta.macd_diff closes with
    | some col => col.map (fun o => o.getD 0)
    | none => List.replicate n 0
  let ema20 := emaCol ta 20 closes
  let ema50 := emaCol ta 50 closes
  let ema_cross := List.zipWith (fun a b => if a > b then (1 : ℚ) else 0) ema20 ema50
  let bb_width :=
    if n > 20 then
      match ta.wband closes with
      | some col => col.map (fun o => o.getD 0)
      | none => List.replicate n 0
    else List.replicate n 0
  { bars := df
    price_change_pct := price_change_pct
    volume_change_pct := volume_change_pct
    vwap := vwap
    vwap_diff := vwap_diff
    close_position := close_position
    rsi := rsi
    macd_diff := macd_diff
    ema20 := ema20
    ema50 := ema50
    ema_cross := ema_cross
    bb_width := bb_width }

/-- A collaborator whose every call raises; used to evaluate the
pipeline at concrete inputs. -/
def taNone : TaLib :=
  { rsi := fun _ _ => none
    macd_diff := fun _ => none
    ema := fun _ _ => none
    wband := fun _ => none }

/-- A one-bar table with a degenerate range: `High = Low = Close`. -/
def degBar : Bar :=
  { date := 0, openPrice := 10, high := 10, low := 10, close := 10, volume := 100 }

/-- C4, counterexample: on a degenerate bar (`High = Low = Close`) the
computed `close_position` is 0, not the claimed 0.5 — the ε in the
denominator makes the division `0 / 1e-8 = 0`, and `fillna(0.5)` never
fires because the value is not NaN. -/
theorem close_position_degenerate_not_half :
    (calculate_technical_indicators taNone [degBar]).close_position = [0] ∧
    (calculate_technical_indicators taNone [degBar]).close_position ≠ [(1 : ℚ)/2] := by
  have h : (calculate_technical_indicators taNone [degBar]).close_position = [0] := by
    show ([degBar].mergeSort dateLe).map closePos = [0]
    rw [List.mergeSort_of_sorted (List.pairwise_singleton _ _)]
    simp [closePos, degBar, eps]
  refine ⟨h, ?_⟩
  rw [h]
  intro hc
  have : (0 : ℚ) = 1/2 := List.head_eq_of_cons_eq hc
  norm_num at this

/-- C4, amended: the `close_position` column is the per-bar map of
`(Close - Low)/(High - Low + ε)` over the (sorted) rows; under the OHLCV
invariant `Low ≤ Close ≤ High` each entry lies in `[0, 1]`, and on a
degenerate range (`High = Low`) the entry equals 0 (not 0.5: the
`fillna(0.5)` only replaces NaN, which the ε prevents). -/
theorem close_position_in_range :
    (∀ ta df0, (calculate_technical_indicators ta df0).close_position =
      (calculate_technical_indicators ta df0).bars.map closePos) ∧
    (∀ b : Bar, b.low ≤ b.close → b.close ≤ b.high →
      0 ≤ closePos b ∧ closePos b ≤ 1) ∧
    (∀ b : Bar, b.high = b.low → b.low ≤ b.close → b.close ≤ b.high →
      closePos b = 0) := by
  have heps : (0 : ℚ) < eps := by norm_num [eps]
  refine ⟨fun ta df0 => rfl, fun b h1 h2 => ?_, fun b hd h1 h2 => ?_⟩
  · have hr : (0 : ℚ) < b.high - b.low + eps := by linarith
    unfold closePos
    rw [if_neg (by intro hc; exact absurd hc.1 (by linarith))]
    constructor
    · exact div_nonneg (by linarith) (le_of_lt hr)
    · rw [div_le_one hr]; linarith
  · have hc : b.close = b.low := le_antisymm (hd ▸ h2) h1
    unfold closePos
    rw [if_neg (by intro hcon; exact absurd hcon.1 (by rw [hd]; linarith))]
    rw [hc]
    simp

/-- A normal bar with `Low < Close < High`. -/
def midBar : Bar :=
  { date := 1, openPrice := 10, high := 12, low := 9, close := 11, volume := 100 }

/-- Witness for the amended theorem of C4: a normal bar has `close_position` in `[0, 1]` and the degenerate bar has 0. -/
theorem close_position_in_range_witness :
    (0 ≤ closePos midBar ∧ closePos midBar ≤ 1) ∧ closePos degBar = 0 :=
  ⟨close_position_in_range.2.1 midBar (by norm_num [midBar]) (by norm_num [midBar]),
   close_position_in_range.2.2 degBar (by norm_num [degBar])
     (by norm_num [degBar]) (by norm_num [degBar])⟩

/-- C8: the pipeline never mutates the table of the caller — its first
statement is `df = df.copy()`, so in this embedding it is a pure
function — and the value it returns is an augmented copy: for every
(chronologically ascending, per the OHLCV invariant) input, the rows and
original OHLCV columns of the output are exactly those of the input, with the
derived columns appended alongside. -/
theorem pipeline_preserves_bars (ta : TaLib) (df0 : List Bar)
    (h : List.Pairwise (fun a b => a.date ≤ b.date) df0) :
    (calculate_technical_indicators ta df0).bars = df0 := by
  show df0.mergeSort dateLe = df0
  exact List.mergeSort_of_sorted
    (h.imp (fun hab => by simp only [dateLe, decide_eq_true_eq]; exact hab))

/-- Witness for C8 on a concrete two-bar ascending table. -/
theorem pipeline_preserves_bars_witness :
    (calculate_technical_indicators taNone
      [{ date := 1, openPrice := 1, high := 3, low := 1, close := 2, volume := 10 },
       { date := 2, openPrice := 2, high := 4, low := 2, close := 3, volume := 20 }]).bars =
    [{ date := 1, openPrice := 1, high := 3, low := 1, close := 2, volume := 10 },
     { date := 2, openPrice := 2, high := 4, low := 2, close := 3, volume := 20 }] :=
  pipeline_preserves_bars taNone _ (by simp)

/-- C9: on a 19-bar series (below the 20-bar minimum) the pipeline — a
total function for every behaviour of the `ta` collaborator, so it never
raises — gives `bb_width` its default 0 for every row (the `len(df) > 20`
guard fails) and falls back to the close column for `ema50` (and
`ema20`; the `len(df) >= window` guards fail). -/
theorem pipeline_19_bars (ta : TaLib) (df0 : List Bar) (h : df0.length = 19) :
    (calculate_technical_indicators ta df0).bb_width = List.replicate 19 0 ∧
    (calculate_technical_indicators ta df0).ema50 =
      (calculate_technical_indicators ta df0).bars.map Bar.close ∧
    (calculate_technical_indicators ta df0).ema20 =
      (calculate_technical_indicators ta df0).bars.map Bar.close := by
  have hlen : (df0.mergeSort dateLe).length = 19 := by
    rw [List.length_mergeSort]; exact h
  have hclen : ((df0.mergeSort dateLe).map Bar.close).length = 19 := by
    rw [List.length_map]; exact hlen
  refine ⟨?_, ?_, ?_⟩
  · show (if (df0.mergeSort dateLe).length > 20 then _ else
      List.replicate (df0.mergeSort dateLe).length (0 : ℚ)) = List.replicate 19 0
    rw [hlen]
    norm_num
  · show emaCol ta 50 ((df0.mergeSort dateLe).map Bar.close) =
      (df0.mergeSort dateLe).map Bar.close
    unfold emaCol
    rw [hclen]
    norm_num
  · show emaCol ta 20 ((df0.mergeSort dateLe).map Bar.close) =
      (df0.mergeSort dateLe).map Bar.close
    unfold emaCol
    rw [hclen]
    norm_num

/-- A 19-bar ascending table used to witness C9. -/
def bars19 : List Bar :=
  (List.range 19).map (fun i =>
    { date := (i : ℤ), openPrice := 1, high := 2, low := 1, close := 1, volume := 1 })

/-- Witness for C9 at a concrete 19-bar series with an always-raising
collaborator. -/
theorem pipeline_19_bars_witness :
    (calculate_technical_indicators taNone bars19).bb_width = List.replicate 19 0 ∧
    (calculate_technical_indicators taNone bars19).ema50 =
      (calculate_technical_indicators taNone bars19).bars.map Bar.close ∧
    (calculate_technical_indicators taNone bars19).ema20 =
      (calculate_technical_indicators taNone bars19).bars.map Bar.close :=
  pipeline_19_bars taNone bars19 (by rfl)

end BTST
